import Mathlib

/-!
Shallow embedding of the OSPRay distributed framebuffer core
(`modules/mpi/fb/DistributedFrameBuffer.cpp`), together with theorems that
settle the specification claims about it.

Machine integers are modelled as `Nat`/`Int` (the quantities involved —
tile ids, ranks, byte sizes, accumulation counters — never approach the
32/64-bit bounds in the scenarios the spec describes).  Fallible code
(`throw std::runtime_error`) is modelled with `Except DFBError`.  Per-tile
float error values are modelled by `ErrVal` (a rational or `+inf`), which
reproduces the IEEE comparisons the code performs (`inf <= inf` is true).
-/

namespace DFB

/-- The distinct `std::runtime_error` failures the framebuffer can raise;
each constructor corresponds to one `throw` site in the source. -/
inductive DFBError
  | msgSizeForNone        -- masterMsgSize on OSP_FB_NONE
  | msgCtorForNone        -- MasterTileMessageBuilder ctor on OSP_FB_NONE
  | startOnActiveFrame    -- startNewFrame with frameIsActive already true
  | mapWithoutLocalFB     -- mapBuffer with localFBonMaster == nullptr
  | unmapWithoutLocalFB   -- unmap with localFBonMaster == nullptr
  | masterMsgScheduled    -- scheduleProcessing on MASTER_WRITE_TILE_*
  | unknownTileType       -- scheduleProcessing on an unrecognized command
  | setTileInactive       -- setTile on an owned tile while frame inactive
  | nonMasterTileInGather -- gatherFinalTiles parse on a non-master command
deriving DecidableEq, Repr

/-- Color buffer formats (`OSPFrameBufferFormat`) the framebuffer supports. -/
inductive FBFormat
  | NONE
  | RGBA8
  | SRGBA
  | RGBA32F
deriving DecidableEq, Repr

/-- Per-tile error values: a finite rational or `+inf` (the code stores
`float` errors where `inf` means "unknown / not converged"). -/
inductive ErrVal
  | fin (q : ℚ)
  | inf
deriving DecidableEq

/-- Comparison `a <= b` on error values, matching IEEE float `<=` on the values the
code uses (in particular `inf <= inf` holds). -/
def ErrVal.le : ErrVal → ErrVal → Bool
  | _, .inf => true
  | .inf, .fin _ => false
  | .fin a, .fin b => decide (a ≤ b)

/-! ### Wire command bits

Modelled from the spec: the header defining the command bitmask is not under
`src/`; §6 of the spec fixes the values `MASTER_WRITE_TILE_I8 = 1`,
`MASTER_WRITE_TILE_F32 = 2`, `HAS_DEPTH = 4`, `HAS_AUX = 8`,
`WORKER_WRITE_TILE = 16`, `CANCEL_RENDERING = 32`. -/

def MASTER_WRITE_TILE_I8 : Nat := 1
def MASTER_WRITE_TILE_F32 : Nat := 2
def MASTER_TILE_HAS_DEPTH : Nat := 4
def MASTER_TILE_HAS_AUX : Nat := 8
def WORKER_WRITE_TILE : Nat := 16
def CANCEL_RENDERING : Nat := 32

/-! ### Message sizes

`sizeof(MasterTileMessage_NONE)` is 16 bytes: `int command` (4), `vec2i
coords` (8), `float error` (4), with no padding.  `MasterTileMessage_FB`
adds `ColorT color[TILE_SIZE * TILE_SIZE]` where `ColorT` is `uint32`
(4 bytes) for the 8-bit formats and `vec4f` (16 bytes) for float32.
`TILE_SIZE` is the design constant `T`, kept as an explicit parameter. -/

def sizeofMasterTileMessageNONE : Nat := 16

/-- Bytes per color pixel for each non-NONE format (`pixelSize` in the
builder: `sizeof(uint32)` or `sizeof(vec4f)`). -/
def pixelBytes : FBFormat → Nat
  | .NONE => 0
  | .RGBA8 => 4
  | .SRGBA => 4
  | .RGBA32F => 16

/-- Source function `masterMsgSize(fmt, hasDepth)`: the size of the
fixed-layout master tile message struct (header + color plane), plus one
`float` depth plane when `hasDepth`.  Throws on `OSP_FB_NONE`. -/
def masterMsgSize (fmt : FBFormat) (hasDepth : Bool) (T : Nat) :
    Except DFBError Nat :=
  match fmt with
  | .NONE => .error .msgSizeForNone
  | .RGBA8 => .ok (sizeofMasterTileMessageNONE + 4 * T * T
      + (if hasDepth then 4 * T * T else 0))
  | .SRGBA => .ok (sizeofMasterTileMessageNONE + 4 * T * T
      + (if hasDepth then 4 * T * T else 0))
  | .RGBA32F => .ok (sizeofMasterTileMessageNONE + 16 * T * T
      + (if hasDepth then 4 * T * T else 0))

/-- The byte size of the message allocated by the `MasterTileMessageBuilder`
constructor: it starts from `masterMsgSize(fmt, hasDepth)`, then adds one
`float` depth plane whenever `hasDepth || hasNormal || hasAlbedo` ("AUX also
includes depth"), and two `vec3f` planes (normal + albedo) whenever
`hasNormal || hasAlbedo`. -/
def builderMsgSize (fmt : FBFormat) (hasDepth hasNormal hasAlbedo : Bool)
    (T : Nat) : Except DFBError Nat :=
  match masterMsgSize fmt hasDepth T with
  | .error _ => .error .msgCtorForNone
  | .ok base => .ok (base
      + (if hasDepth || hasNormal || hasAlbedo then 4 * T * T else 0)
      + (if hasNormal || hasAlbedo then 2 * 12 * T * T else 0))

/-- The command bitmask the builder stores in the message header:
the format bit, plus `HAS_DEPTH` iff `hasDepth`, plus `HAS_AUX` iff
`hasNormal || hasAlbedo`. -/
def builderCommand (fmt : FBFormat) (hasDepth hasNormal hasAlbedo : Bool) :
    Except DFBError Nat :=
  match fmt with
  | .NONE => .error .msgCtorForNone
  | .RGBA8 | .SRGBA => .ok (MASTER_WRITE_TILE_I8
      ||| (if hasDepth then MASTER_TILE_HAS_DEPTH else 0)
      ||| (if hasNormal || hasAlbedo then MASTER_TILE_HAS_AUX else 0))
  | .RGBA32F => .ok (MASTER_WRITE_TILE_F32
      ||| (if hasDepth then MASTER_TILE_HAS_DEPTH else 0)
      ||| (if hasNormal || hasAlbedo then MASTER_TILE_HAS_AUX else 0))

/-- Modelled from the spec: the §6 wire layout size of a master tile record
— 16-byte header, `P·T²` color bytes, a `4·T²` depth plane iff the
`HAS_DEPTH` bit is set, and `12·T²` normals plus `12·T²` albedos iff
`HAS_AUX` is set. -/
def wireTileBytesSpec (fmt : FBFormat) (hasDepth hasNormal hasAlbedo : Bool)
    (T : Nat) : Option Nat :=
  match fmt with
  | .NONE => none
  | _ => some (16 + pixelBytes fmt * T * T
      + (if hasDepth then 4 * T * T else 0)
      + (if hasNormal || hasAlbedo then 12 * T * T + 12 * T * T else 0))

/-! ### Tile ownership -/

/-- Modelled from the spec: `mpicommon::globalRankFromWorkerRank` is not
under `src/`.  The spec (§3, §8) fixes the master at global rank 0 with the
workers occupying the remaining ranks in order, so worker `w` has global
rank `w + 1`. -/
def globalRankFromWorkerRank (workerRank : Nat) : Nat := workerRank + 1

/-- Embeds `DFB::ownerIDFromTileID`: round-robin tile ownership.  `numWorkers` in
the source is `numGlobalRanks - 1` when the master is not a worker. -/
def ownerIDFromTileID (masterIsAWorker : Bool) (numGlobalRanks : Nat)
    (tileID : Nat) : Nat :=
  if masterIsAWorker then tileID % numGlobalRanks
  else globalRankFromWorkerRank (tileID % (numGlobalRanks - 1))

/-- The owner ranks of the tiles of an image, in tile-id order — the
ownership sequence `createTiles` assigns while it walks the tile grid
row-major. -/
def createTilesOwners (masterIsAWorker : Bool) (numGlobalRanks : Nat)
    (numTiles : Nat) : List Nat :=
  (List.range numTiles).map (ownerIDFromTileID masterIsAWorker numGlobalRanks)

/-! ### The live message router task body

`DFB::scheduleProcessing` submits a task that reads the `command` field of
the message and routes it: both `MASTER_WRITE_TILE_*` bits throw (master
tiles travel only through the final gather), `WORKER_WRITE_TILE` dispatches
to the owner tile state machine, and anything else throws "unknown tile
type processed". -/

/-- The successful outcomes of routing a live message. -/
inductive RouteAction
  | workerWriteTile
deriving DecidableEq, Repr

/-- The body of the task submitted by `DFB::scheduleProcessing`, as a
function of the message command bitmask. -/
def routeCommand (command : Nat) : Except DFBError RouteAction :=
  if command &&& MASTER_WRITE_TILE_I8 ≠ 0 then .error .masterMsgScheduled
  else if command &&& MASTER_WRITE_TILE_F32 ≠ 0 then .error .masterMsgScheduled
  else if command &&& WORKER_WRITE_TILE ≠ 0 then .ok .workerWriteTile
  else .error .unknownTileType

/-! ### Framebuffer state

One record holds the parts of `DistributedFrameBuffer` state the
specification claims are about.  Inter-thread interleavings are collapsed
to a sequential order of operations (every claim here is about the
sequential effect of each operation); MPI collectives are modelled by
explicit parameters carrying the values a rank receives. -/

/-- A transport message: the leading `command` bitmask plus an opaque
payload identifier standing for the rest of the bytes. -/
structure TileMessage where
  command : Nat
  payload : Nat
deriving DecidableEq, Repr

structure DFBState where
  myRank : Nat
  numGlobalRanks : Nat
  masterIsAWorker : Bool
  hasAccumBuffer : Bool
  numTilesX : Nat
  numTilesY : Nat
  tileSize : Nat                    -- the TILE_SIZE design constant
  tileAccumID : Nat → Int           -- per-tile accumulation pass counter
  tileInstances : Nat → Int         -- per-tile per-frame usage counter
  tileErrors : Nat → ErrVal         -- flat view of tileErrorRegion
  frameIsActive : Bool
  frameIsDone : Bool
  cancelRendering : Bool
  delayedMessage : List TileMessage -- pre-activation FIFO buffer
  scheduled : List TileMessage      -- trace of scheduleProcessing calls
  processedTiles : List (Nat × Nat) -- trace of local td->process calls
  sentMessages : List (Nat × TileMessage) -- trace of sendTo(rank, msg)
  numTilesCompletedThisFrame : Nat

/-- Embeds `getTotalTiles()`. -/
def totalTiles (s : DFBState) : Nat := s.numTilesX * s.numTilesY

/-- Embeds `mpicommon::IamTheMaster()`: the master is global rank 0 (modelled from
the spec, which places the master at rank 0). -/
def iAmTheMaster (s : DFBState) : Bool := s.myRank == 0

/-- Embeds `TileDesc::mine()` for the tile with the given id: the owner computed
by `ownerIDFromTileID` is this rank. -/
def mineTile (s : DFBState) (tileID : Nat) : Bool :=
  ownerIDFromTileID s.masterIsAWorker s.numGlobalRanks tileID == s.myRank

/-- Embeds `myTiles.size()`: the number of tiles of the grid this rank owns. -/
def myTilesCount (s : DFBState) : Nat :=
  ((List.range (totalTiles s)).filter (mineTile s)).length

/-- Embeds `DFB::getTileIDof`: `(c.x/TILE_SIZE) + (c.y/TILE_SIZE)*numTiles.x`. -/
def getTileIDof (s : DFBState) (c : Nat × Nat) : Nat :=
  c.1 / s.tileSize + (c.2 / s.tileSize) * s.numTilesX

/-- Embeds `DFB::isFrameComplete(numTiles)`: add `numTiles` to the completion
counter, then compare it against `myTiles.size()` on a worker (or on a
master that is also a worker) and against `getTotalTiles()` on an idle
master. -/
def isFrameComplete (s : DFBState) (numTiles : Nat) : DFBState × Bool :=
  ({s with numTilesCompletedThisFrame :=
             s.numTilesCompletedThisFrame + numTiles},
   if s.myRank ≠ 0 ∨ (s.myRank = 0 ∧ s.masterIsAWorker = true) then
     s.numTilesCompletedThisFrame + numTiles == myTilesCount s
   else
     s.numTilesCompletedThisFrame + numTiles == totalTiles s)

/-- Embeds `DFB::closeCurrentFrame`. -/
def closeCurrentFrame (s : DFBState) : DFBState :=
  {s with frameIsActive := false, frameIsDone := true}

/-- The `if (isFrameComplete(n)) closeCurrentFrame();` tail shared by
`startNewFrame` and `tileIsCompleted`. -/
def maybeClose (p : DFBState × Bool) : DFBState :=
  if p.2 then closeCurrentFrame p.1 else p.1

/-- Embeds `DFB::scheduleProcessing`: post the message to the work pool (modelled
as appending to the `scheduled` trace; the task body is `routeCommand`). -/
def scheduleProcessing (s : DFBState) (m : TileMessage) : DFBState :=
  {s with scheduled := s.scheduled ++ [m]}

/-- Embeds `DFB::incoming`: while the frame is not active, buffer the message in
`delayedMessage`; otherwise schedule it.  (The double-checked lock
collapses to a single check in this sequential model.) -/
def incoming (s : DFBState) (m : TileMessage) : DFBState :=
  if s.frameIsActive then scheduleProcessing s m
  else {s with delayedMessage := s.delayedMessage ++ [m]}

/-- The pre-count loop of `startNewFrame`: when the framebuffer has an
accumulation buffer, walk every tile id `t`, and count it (the code reads
`tileError(vec2i(t, 0))`, which indexes the flat error array at `t`) when
its stored error is at most the threshold and `allTiles[t]->mine()`. -/
def newFramePreCount (s : DFBState) (errorThreshold : ErrVal) : Nat :=
  if s.hasAccumBuffer then
    ((List.range (totalTiles s)).filter
      (fun t => ErrVal.le (s.tileErrors t) errorThreshold && mineTile s t)).length
  else 0

/-- Embeds `DFB::startNewFrame(errorThreshold)`.  Throws if the frame is already
active.  Otherwise: moves the delayed queue out, receives the
`tileInstances` broadcast (`bcastInstances` carries the master values a
non-master rank receives), resets the completion counter to the pre-count
of converged owned tiles, clears `frameIsDone`, sets `frameIsActive` (last
under the lock), replays the delayed messages through `scheduleProcessing`
in FIFO order, and finally closes the frame if `isFrameComplete(0)`. -/
def startNewFrame (s : DFBState) (errorThreshold : ErrVal)
    (bcastInstances : Nat → Int) : Except DFBError DFBState :=
  if s.frameIsActive then .error .startOnActiveFrame
  else
    let s1 := {s with
      delayedMessage := [],
      tileInstances :=
        if s.myRank == 0 then s.tileInstances else bcastInstances,
      numTilesCompletedThisFrame := newFramePreCount s errorThreshold,
      frameIsDone := false,
      frameIsActive := true,
      scheduled := s.scheduled ++ s.delayedMessage}
    .ok (maybeClose (isFrameComplete s1 0))

/-- Embeds `DFB::beginFrame`: reset the cancellation flag. -/
def beginFrame (s : DFBState) : DFBState :=
  {s with cancelRendering := false}

/-- Embeds `DFB::accumID(tile)`: without an accumulation buffer, return 0 and do
nothing; otherwise increment `tileInstances[tileNr]` and return
`tileAccumID[tileNr]`, where `tileNr = tile.y * numTiles.x + tile.x`. -/
def accumID (s : DFBState) (tile : Nat × Nat) : Int × DFBState :=
  if s.hasAccumBuffer then
    (s.tileAccumID (tile.2 * s.numTilesX + tile.1),
     {s with tileInstances := fun n =>
        if n = tile.2 * s.numTilesX + tile.1 then s.tileInstances n + 1
        else s.tileInstances n})
  else (0, s)

/-- The state effect of `DFB::endFrame`: zero `tileInstances`, increment
`tileAccumID[i]` for every `i < getTotalTiles()` (the image-level error
returned by `tileErrorRegion.refine` lives outside this state). -/
def endFrameState (s : DFBState) : DFBState :=
  {s with
    tileInstances := fun _ => 0,
    tileAccumID := fun i =>
      if i < totalTiles s then s.tileAccumID i + 1 else s.tileAccumID i}

/-- Embeds `DFB::setTile(tile)`: look up the tile descriptor of the tile origin;
if the tile is not owned here, wrap the tile in a `WORKER_WRITE_TILE`
message and send it to the owner; if owned, throw when the frame is not
active, else process the tile locally. -/
def setTile (s : DFBState) (coords : Nat × Nat) (payload : Nat) :
    Except DFBError DFBState :=
  if mineTile s (getTileIDof s coords) = false then
    .ok {s with sentMessages := s.sentMessages ++
      [(ownerIDFromTileID s.masterIsAWorker s.numGlobalRanks
          (getTileIDof s coords), ⟨WORKER_WRITE_TILE, payload⟩)]}
  else if s.frameIsActive = false then .error .setTileInactive
  else .ok {s with processedTiles := s.processedTiles ++ [coords]}

/-- The completion-count effect of `DFB::tileIsCompleted` (the gather
buffer write is outside this state): `isFrameComplete(1)`, then close the
frame when the expected count is reached. -/
def tileIsCompletedCount (s : DFBState) : DFBState :=
  maybeClose (isFrameComplete s 1)

/-- The operations of one frame between `beginFrame` and `endFrame`
(`clear` belongs to the IDLE part of the lifecycle and `endFrame` itself
closes the frame). -/
inductive FrameOp
  | beginOp
  | startOp (errorThreshold : ErrVal) (bcastInstances : Nat → Int)
  | incomingOp (m : TileMessage)
  | setTileOp (coords : Nat × Nat) (payload : Nat)
  | accumIDOp (tile : Nat × Nat)
  | tileCompleteOp
  | closeOp

/-- Apply one frame operation to the state; an operation that throws leaves
the state as it was (the failure propagates to the host before any
mutation). -/
def applyOp (s : DFBState) : FrameOp → DFBState
  | .beginOp => beginFrame s
  | .startOp θ inst =>
      match startNewFrame s θ inst with
      | .ok s' => s'
      | .error _ => s
  | .incomingOp m => incoming s m
  | .setTileOp c payload =>
      match setTile s c payload with
      | .ok s' => s'
      | .error _ => s
  | .accumIDOp tile => (accumID s tile).2
  | .tileCompleteOp => tileIsCompletedCount s
  | .closeOp => closeCurrentFrame s

/-! ### Master-side framebuffer access -/

/-- The master-side local framebuffer, an external collaborator: only its
presence and its map operation matter here. -/
structure LocalFrameBuffer where
  mapBufferImpl : Nat → Nat

/-- Embeds `DFB::mapBuffer(channel)`: throws when there is no master-side local
framebuffer, otherwise delegates to it. -/
def mapBuffer (localFBonMaster : Option LocalFrameBuffer) (channel : Nat) :
    Except DFBError Nat :=
  match localFBonMaster with
  | none => .error .mapWithoutLocalFB
  | some fb => .ok (fb.mapBufferImpl channel)

/-- Embeds `DFB::unmap(mappedMem)`: throws when there is no master-side local
framebuffer, otherwise delegates to it. -/
def unmap (localFBonMaster : Option LocalFrameBuffer) (_mappedMem : Nat) :
    Except DFBError Unit :=
  match localFBonMaster with
  | none => .error .unmapWithoutLocalFB
  | some _ => .ok ()

/-! ### Master tile assembly (clipping) -/

/-- The image coordinates `processMessage(MasterTileMessage_FB<ColorT>*)`
writes for a tile with origin `coords` on an image of `numPixels` pixels:
the doubly nested loop over `iy, ix < TILE_SIZE` computes `iiy = iy +
coords.y` and `iix = ix + coords.x` and `continue`s whenever the
coordinate reaches the image size (the row loop skips the whole row, the
pixel loop skips the pixel).  Color, depth, normal and albedo are all
written at the same guarded coordinates. -/
def masterTileWrites (T : Nat) (coords : Nat × Nat) (numPixels : Nat × Nat) :
    List (Nat × Nat) :=
  (List.range T).flatMap (fun iy =>
    let iiy := iy + coords.2
    if numPixels.2 ≤ iiy then []
    else (List.range T).flatMap (fun ix =>
      let iix := ix + coords.1
      if numPixels.1 ≤ iix then []
      else [(iix, iiy)]))

/-! ### Concrete states for witnesses and counterexamples

The spec's running scenario: a 4×3-pixel image with `TILE_SIZE = 2`, hence
a 3×2 tile grid (6 tiles), 3 ranks, master = rank 0. -/

def zeroInstances : Nat → Int := fun _ => 0

def infErrors : Nat → ErrVal := fun _ => ErrVal.inf

/-- The idle (non-worker) master of the 6-tile scenario, before a frame is
started. -/
def idleMasterState : DFBState where
  myRank := 0
  numGlobalRanks := 3
  masterIsAWorker := false
  hasAccumBuffer := true
  numTilesX := 3
  numTilesY := 2
  tileSize := 2
  tileAccumID := fun _ => 0
  tileInstances := fun _ => 0
  tileErrors := infErrors
  frameIsActive := false
  frameIsDone := false
  cancelRendering := false
  delayedMessage := []
  scheduled := []
  processedTiles := []
  sentMessages := []
  numTilesCompletedThisFrame := 0

/-- Worker rank 1 of the same scenario, before a frame is started (it owns
tiles 0, 2, 4). -/
def workerState : DFBState :=
  {idleMasterState with myRank := 1}

/-- Worker rank 1 with an active frame. -/
def activeWorkerState : DFBState :=
  {workerState with frameIsActive := true}

/-! ## Helper lemmas -/

theorem ErrVal.le_inf (e : ErrVal) : ErrVal.le e ErrVal.inf = true := by
  cases e <;> rfl

theorem filter_flatMap_comm {α β : Type} (l : List α) (f : α → List β)
    (p : β → Bool) :
    (l.flatMap f).filter p = l.flatMap (fun x => (f x).filter p) := by
  induction l with
  | nil => rfl
  | cons a l ih => simp [List.flatMap_cons, List.filter_append, ih]

theorem flatMap_guard_eq_filter_map (l : List Nat) (cx y w : Nat)
    (p : Nat × Nat → Bool)
    (hp : ∀ ix, p (ix + cx, y) = decide (ix + cx < w)) :
    (l.flatMap (fun ix => if w ≤ ix + cx then [] else [(ix + cx, y)]))
      = (l.map (fun ix => (ix + cx, y))).filter p := by
  induction l with
  | nil => rfl
  | cons a l ih =>
      simp only [List.flatMap_cons, List.map_cons, List.filter_cons, hp a]
      by_cases h : w ≤ a + cx
      · rw [if_pos h]
        have : decide (a + cx < w) = false := by
          simp only [decide_eq_false_iff_not]; omega
        rw [this]
        simpa using ih
      · rw [if_neg h]
        have : decide (a + cx < w) = true := by
          simp only [decide_eq_true_eq]; omega
        rw [this]
        simpa using ih

theorem length_filter_range_eq_card (n : Nat) (p : Nat → Bool) :
    ((List.range n).filter p).length =
      ((Finset.range n).filter (fun t => p t = true)).card := by
  induction n with
  | zero => rfl
  | succ n ih =>
      rw [List.range_succ, List.filter_append, Finset.range_succ,
          Finset.filter_insert]
      by_cases h : p n = true
      · rw [if_pos h,
            Finset.card_insert_of_not_mem (by simp),
            List.length_append]
        simp [h, ih]
      · rw [if_neg h, List.length_append]
        simp [List.filter_cons, h, ih]

theorem maybeClose_fields (p : DFBState × Bool) :
    (maybeClose p).tileAccumID = p.1.tileAccumID ∧
    (maybeClose p).numTilesX = p.1.numTilesX ∧
    (maybeClose p).numTilesY = p.1.numTilesY ∧
    (maybeClose p).scheduled = p.1.scheduled ∧
    (maybeClose p).delayedMessage = p.1.delayedMessage ∧
    (maybeClose p).numTilesCompletedThisFrame
        = p.1.numTilesCompletedThisFrame := by
  unfold maybeClose
  split <;> exact ⟨rfl, rfl, rfl, rfl, rfl, rfl⟩

theorem maybeClose_done_of_true (p : DFBState × Bool) (h : p.2 = true) :
    (maybeClose p).frameIsDone = true := by
  unfold maybeClose
  rw [if_pos h]
  rfl

theorem isFrameComplete_snd_worker (s : DFBState) (n : Nat)
    (hw : s.myRank ≠ 0 ∨ (s.myRank = 0 ∧ s.masterIsAWorker = true))
    (hn : s.numTilesCompletedThisFrame + n = myTilesCount s) :
    (isFrameComplete s n).2 = true := by
  show (if s.myRank ≠ 0 ∨ (s.myRank = 0 ∧ s.masterIsAWorker = true) then
          s.numTilesCompletedThisFrame + n == myTilesCount s
        else
          s.numTilesCompletedThisFrame + n == totalTiles s) = true
  rw [if_pos hw, hn]
  exact beq_self_eq_true _

theorem startNewFrame_not_active_fields (s : DFBState) (θ : ErrVal)
    (inst : Nat → Int) (h : s.frameIsActive = false) :
    (startNewFrame s θ inst).map DFBState.scheduled
        = Except.ok (s.scheduled ++ s.delayedMessage) ∧
    (startNewFrame s θ inst).map DFBState.delayedMessage = Except.ok [] ∧
    (startNewFrame s θ inst).map DFBState.numTilesCompletedThisFrame
        = Except.ok (newFramePreCount s θ) := by
  unfold startNewFrame
  simp only [h, Bool.false_eq_true, if_false, Except.map]
  refine ⟨?_, ?_, ?_⟩
  · rw [(maybeClose_fields _).2.2.2.1]
    rfl
  · rw [(maybeClose_fields _).2.2.2.2.1]
    rfl
  · rw [(maybeClose_fields _).2.2.2.2.2]
    rfl

theorem foldl_incoming_inactive (msgs : List TileMessage) (s : DFBState)
    (h : s.frameIsActive = false) :
    (msgs.foldl incoming s).delayedMessage = s.delayedMessage ++ msgs ∧
    (msgs.foldl incoming s).scheduled = s.scheduled ∧
    (msgs.foldl incoming s).frameIsActive = false := by
  induction msgs generalizing s with
  | nil => exact ⟨(List.append_nil _).symm, rfl, h⟩
  | cons m msgs ih =>
      simp only [List.foldl_cons]
      have hstep : incoming s m
          = {s with delayedMessage := s.delayedMessage ++ [m]} := by
        unfold incoming
        simp [h]
      rw [hstep]
      obtain ⟨i1, i2, i3⟩ := ih {s with delayedMessage := s.delayedMessage ++ [m]} h
      refine ⟨?_, i2, i3⟩
      rw [i1]
      simp

/-! ## Claim theorems -/

/-- C1: tile ownership is round-robin — `ownerIDFromTileID t` is `t mod R`
when the master is a worker and `globalRankFromWorkerRank (t mod (R-1))`
otherwise, in which case the master (rank 0) owns zero tiles; on the 6-tile
image with 3 ranks, `createTiles` assigns owners {1,2,1,2,1,2} with
`masterIsAWorker = false` and {0,1,2,0,1,2} with `masterIsAWorker = true`. -/
theorem ownership_round_robin (R t : Nat) :
    ownerIDFromTileID true R t = t % R ∧
    ownerIDFromTileID false R t = globalRankFromWorkerRank (t % (R - 1)) ∧
    ownerIDFromTileID false R t ≠ 0 ∧
    createTilesOwners false 3 6 = [1, 2, 1, 2, 1, 2] ∧
    createTilesOwners true 3 6 = [0, 1, 2, 0, 1, 2] := by
  refine ⟨rfl, rfl, ?_, by decide, by decide⟩
  simp [ownerIDFromTileID, globalRankFromWorkerRank]

/-- C3: a live message whose command is `CANCEL_RENDERING` does NOT set the
cancel flag — the task body of `scheduleProcessing` has no branch for it,
so the message falls through to the final `else` and throws the
"unknown tile type processed" runtime error.  (The code's own
`sendCancelRenderingMessage` sends exactly such messages to every rank, and
`beginFrame` resets the `cancelRendering` flag they are meant to set, so
the missing branch contradicts the rest of the code.) -/
theorem cancel_message_throws_in_router :
    routeCommand CANCEL_RENDERING = Except.error DFBError.unknownTileType :=
  rfl

/-- C4: the serialized master-tile message does NOT match the gather slot
size.  For RGBA8 with depth and `TILE_SIZE = 2` the builder allocates
16 + 4·T² + 4·T² + 4·T² = 64 bytes (`masterMsgSize` already includes the
depth plane and the constructor adds it a second time), while the per-tile
slot used by `startNewFrame` to size `tileGatherBuffer` and by
`gatherFinalTiles` to parse on the master is `masterMsgSize = 48` bytes —
which is the §6 wire-layout size the spec describes. -/
theorem builder_gather_size_mismatch :
    builderMsgSize FBFormat.RGBA8 true false false 2 = Except.ok 64 ∧
    masterMsgSize FBFormat.RGBA8 true 2 = Except.ok 48 ∧
    wireTileBytesSpec FBFormat.RGBA8 true false false 2 = some 48 :=
  ⟨rfl, rfl, rfl⟩

/-- C7: the master assembler clips tile writes to the image on both axes —
the pixels it writes for a tile with origin `coords` are exactly the tile's
pixels whose image coordinates satisfy `x < numPixels.x` and
`y < numPixels.y`; tile pixels falling outside the image are skipped. -/
theorem master_tile_writes_clipped (T : Nat) (coords numPixels : Nat × Nat) :
    masterTileWrites T coords numPixels =
      ((List.range T).flatMap (fun iy =>
          (List.range T).map (fun ix => (ix + coords.1, iy + coords.2)))).filter
        (fun p => decide (p.1 < numPixels.1) && decide (p.2 < numPixels.2)) := by
  unfold masterTileWrites
  rw [filter_flatMap_comm]
  congr 1
  funext iy
  by_cases hy : numPixels.2 ≤ iy + coords.2
  · rw [if_pos hy]
    symm
    rw [List.filter_eq_nil_iff]
    intro q hq
    simp only [List.mem_map] at hq
    obtain ⟨ix, _, rfl⟩ := hq
    simp only [Bool.and_eq_true, decide_eq_true_eq, not_and]
    omega
  · rw [if_neg hy]
    apply flatMap_guard_eq_filter_map
    intro ix
    have h2 : decide (iy + coords.2 < numPixels.2) = true := by
      simp only [decide_eq_true_eq]; omega
    simp [h2]

/-- C2: while the frame is not active, every message handed to `incoming`
is appended to the `delayedMessage` queue and none is scheduled for
processing; when `startNewFrame` activates the frame, exactly the queued
messages are handed to `scheduleProcessing`, once each, in the FIFO order
in which they were queued. -/
theorem pre_activation_buffering (s : DFBState) (msgs : List TileMessage)
    (θ : ErrVal) (inst : Nat → Int) (h : s.frameIsActive = false) :
    (msgs.foldl incoming s).delayedMessage = s.delayedMessage ++ msgs ∧
    (msgs.foldl incoming s).scheduled = s.scheduled ∧
    (startNewFrame (msgs.foldl incoming s) θ inst).map DFBState.scheduled
        = Except.ok (s.scheduled ++ (s.delayedMessage ++ msgs)) ∧
    (startNewFrame (msgs.foldl incoming s) θ inst).map DFBState.delayedMessage
        = Except.ok [] := by
  obtain ⟨h1, h2, h3⟩ := foldl_incoming_inactive msgs s h
  obtain ⟨g1, g2, _⟩ := startNewFrame_not_active_fields _ θ inst h3
  refine ⟨h1, h2, ?_, g2⟩
  rw [g1, h1, h2]

/-- C2 witness: two worker-tile messages buffered on an inactive worker,
then replayed in order by frame activation. -/
theorem pre_activation_buffering_witness :
    workerState.frameIsActive = false ∧
    (([⟨16, 7⟩, ⟨16, 8⟩] : List TileMessage).foldl incoming
        workerState).delayedMessage
      = workerState.delayedMessage ++ [⟨16, 7⟩, ⟨16, 8⟩] ∧
    (([⟨16, 7⟩, ⟨16, 8⟩] : List TileMessage).foldl incoming
        workerState).scheduled = workerState.scheduled ∧
    (startNewFrame (([⟨16, 7⟩, ⟨16, 8⟩] : List TileMessage).foldl incoming
        workerState) ErrVal.inf zeroInstances).map DFBState.scheduled
      = Except.ok (workerState.scheduled
          ++ (workerState.delayedMessage ++ [⟨16, 7⟩, ⟨16, 8⟩])) ∧
    (startNewFrame (([⟨16, 7⟩, ⟨16, 8⟩] : List TileMessage).foldl incoming
        workerState) ErrVal.inf zeroInstances).map DFBState.delayedMessage
      = Except.ok [] :=
  ⟨rfl, pre_activation_buffering workerState [⟨16, 7⟩, ⟨16, 8⟩]
    ErrVal.inf zeroInstances rfl⟩

/-- C5 (amended): when the framebuffer has an accumulation buffer,
`startNewFrame(errorThreshold)` pre-counts as complete exactly the tiles
*owned by the calling rank* whose stored error is at most the threshold
(the loop tests `allTiles[t]->mine()`, so non-owned tiles are never
counted); consequently with `errorThreshold = +inf` the frame is closed
before `startNewFrame` returns on every rank whose expected tile count is
its owned count — a worker, or the master when `masterIsAWorker` — but not
on an idle master. -/
theorem startNewFrame_precount_owned (s : DFBState) (θ : ErrVal)
    (inst : Nat → Int) (hact : s.frameIsActive = false)
    (hacc : s.hasAccumBuffer = true) :
    (startNewFrame s θ inst).map DFBState.numTilesCompletedThisFrame
        = Except.ok (((Finset.range (totalTiles s)).filter
            (fun t =>
              (ErrVal.le (s.tileErrors t) θ && mineTile s t) = true)).card) ∧
    ((s.myRank = 0 → s.masterIsAWorker = true) → θ = ErrVal.inf →
        (startNewFrame s θ inst).map DFBState.frameIsDone
          = Except.ok true) := by
  constructor
  · obtain ⟨_, _, g3⟩ := startNewFrame_not_active_fields s θ inst hact
    rw [g3]
    unfold newFramePreCount
    rw [if_pos hacc, length_filter_range_eq_card]
  · intro hw hθ
    subst hθ
    have hcount : newFramePreCount s ErrVal.inf = myTilesCount s := by
      unfold newFramePreCount myTilesCount
      rw [if_pos hacc]
      congr 1
      apply List.filter_congr
      intro t _
      rw [ErrVal.le_inf, Bool.true_and]
    unfold startNewFrame
    simp only [hact, Bool.false_eq_true, if_false, Except.map,
               Except.ok.injEq]
    apply maybeClose_done_of_true
    apply isFrameComplete_snd_worker
    · by_cases hz : s.myRank = 0
      · exact Or.inr ⟨hz, hw hz⟩
      · exact Or.inl hz
    · show newFramePreCount s ErrVal.inf + 0 = myTilesCount s
      rw [Nat.add_zero, hcount]

/-- C5 counterexample: on the idle master of the 6-tile, 3-rank scenario
(`masterIsAWorker = false`), `startNewFrame(+inf)` does NOT close the
frame: the pre-count loop counts only `mine()` tiles, the master owns
none, and its expected count is the total tile count 6, so the frame stays
open, contradicting the claim that the frame closes on every rank. -/
theorem startNewFrame_inf_idle_master_open :
    (startNewFrame idleMasterState ErrVal.inf zeroInstances).map
        DFBState.frameIsDone = Except.ok false := by
  rfl

/-- C5 witness: on worker rank 1 of the same scenario (it owns tiles
0, 2, 4 and all stored errors are `+inf ≤ +inf`), the pre-count equals its
3 owned tiles and `startNewFrame(+inf)` closes the frame. -/
theorem startNewFrame_precount_owned_witness :
    workerState.frameIsActive = false ∧
    workerState.hasAccumBuffer = true ∧
    ((startNewFrame workerState ErrVal.inf zeroInstances).map
        DFBState.numTilesCompletedThisFrame
      = Except.ok (((Finset.range (totalTiles workerState)).filter
          (fun t => (ErrVal.le (workerState.tileErrors t) ErrVal.inf &&
            mineTile workerState t) = true)).card) ∧
    ((workerState.myRank = 0 → workerState.masterIsAWorker = true) →
        ErrVal.inf = ErrVal.inf →
        (startNewFrame workerState ErrVal.inf zeroInstances).map
          DFBState.frameIsDone = Except.ok true)) :=
  ⟨rfl, rfl,
   startNewFrame_precount_owned workerState ErrVal.inf zeroInstances rfl rfl⟩

theorem startNewFrame_ok_state (s s' : DFBState) (θ : ErrVal)
    (inst : Nat → Int) (h : startNewFrame s θ inst = Except.ok s') :
    s'.tileAccumID = s.tileAccumID ∧ s'.numTilesX = s.numTilesX ∧
    s'.numTilesY = s.numTilesY := by
  unfold startNewFrame at h
  split at h
  · exact absurd h (by simp)
  · simp only [Except.ok.injEq] at h
    subst h
    refine ⟨?_, ?_, ?_⟩
    · rw [(maybeClose_fields _).1]
      rfl
    · rw [(maybeClose_fields _).2.1]
      rfl
    · rw [(maybeClose_fields _).2.2.1]
      rfl

theorem setTile_ok_state (s s' : DFBState) (coords : Nat × Nat)
    (payload : Nat) (h : setTile s coords payload = Except.ok s') :
    s'.tileAccumID = s.tileAccumID ∧ s'.numTilesX = s.numTilesX ∧
    s'.numTilesY = s.numTilesY := by
  unfold setTile at h
  repeat' split at h
  all_goals first
    | (simp only [Except.ok.injEq] at h
       subst h
       exact ⟨rfl, rfl, rfl⟩)
    | exact absurd h (by simp)

theorem applyOp_preserves (s : DFBState) (op : FrameOp) :
    (applyOp s op).tileAccumID = s.tileAccumID ∧
    (applyOp s op).numTilesX = s.numTilesX ∧
    (applyOp s op).numTilesY = s.numTilesY := by
  cases op with
  | beginOp => exact ⟨rfl, rfl, rfl⟩
  | startOp θ inst =>
      simp only [applyOp]
      split
      · rename_i s' heq
        exact startNewFrame_ok_state s s' θ inst heq
      · exact ⟨rfl, rfl, rfl⟩
  | incomingOp m =>
      simp only [applyOp]
      unfold incoming scheduleProcessing
      split <;> exact ⟨rfl, rfl, rfl⟩
  | setTileOp c payload =>
      simp only [applyOp]
      split
      · rename_i s' heq
        exact setTile_ok_state s s' c payload heq
      · exact ⟨rfl, rfl, rfl⟩
  | accumIDOp tile =>
      simp only [applyOp]
      unfold accumID
      split <;> exact ⟨rfl, rfl, rfl⟩
  | tileCompleteOp =>
      simp only [applyOp]
      unfold tileIsCompletedCount
      refine ⟨?_, ?_, ?_⟩
      · rw [(maybeClose_fields _).1]
        rfl
      · rw [(maybeClose_fields _).2.1]
        rfl
      · rw [(maybeClose_fields _).2.2.1]
        rfl
  | closeOp => exact ⟨rfl, rfl, rfl⟩

theorem foldl_applyOp_preserves (ops : List FrameOp) (s : DFBState) :
    (ops.foldl applyOp s).tileAccumID = s.tileAccumID ∧
    totalTiles (ops.foldl applyOp s) = totalTiles s := by
  induction ops generalizing s with
  | nil => exact ⟨rfl, rfl⟩
  | cons op ops ih =>
      simp only [List.foldl_cons]
      obtain ⟨h1, h2, h3⟩ := applyOp_preserves s op
      obtain ⟨i1, i2⟩ := ih (applyOp s op)
      refine ⟨by rw [i1, h1], ?_⟩
      rw [i2]
      unfold totalTiles
      rw [h2, h3]

/-- C6: over any sequence of frame operations between `beginFrame` and
`endFrame` (start, incoming messages, setTile, accumID queries, tile
completions, frame close), `tileAccumID` is never modified, and `endFrame`
then increments `tileAccumID[t]` by exactly one for every tile `t`, so the
accumulation id after `endFrame` is exactly one greater than before
`beginFrame`. -/
theorem endFrame_increments_accumID (ops : List FrameOp) (s : DFBState)
    (t : Nat) (ht : t < totalTiles s) :
    (ops.foldl applyOp (beginFrame s)).tileAccumID t = s.tileAccumID t ∧
    (endFrameState (ops.foldl applyOp (beginFrame s))).tileAccumID t
        = s.tileAccumID t + 1 := by
  obtain ⟨h1, h2⟩ := foldl_applyOp_preserves ops (beginFrame s)
  have hb : (beginFrame s).tileAccumID = s.tileAccumID := rfl
  have hbt : totalTiles (beginFrame s) = totalTiles s := rfl
  constructor
  · rw [h1, hb]
  · have hlt : t < totalTiles (ops.foldl applyOp (beginFrame s)) := by
      rw [h2, hbt]
      exact ht
    show (if t < totalTiles (ops.foldl applyOp (beginFrame s))
          then (ops.foldl applyOp (beginFrame s)).tileAccumID t + 1
          else (ops.foldl applyOp (beginFrame s)).tileAccumID t)
        = s.tileAccumID t + 1
    rw [if_pos hlt, h1, hb]

/-- C6 witness: a concrete frame on worker rank 1 — activation, one
incoming message, one `accumID` query and one tile completion leave
`tileAccumID[0]` untouched, and `endFrame` bumps it from 0 to 1. -/
theorem endFrame_increments_accumID_witness :
    0 < totalTiles workerState ∧
    ((([FrameOp.startOp ErrVal.inf zeroInstances,
        FrameOp.incomingOp ⟨16, 3⟩,
        FrameOp.accumIDOp (0, 0),
        FrameOp.tileCompleteOp] : List FrameOp).foldl applyOp
          (beginFrame workerState)).tileAccumID 0
        = workerState.tileAccumID 0 ∧
     (endFrameState (([FrameOp.startOp ErrVal.inf zeroInstances,
        FrameOp.incomingOp ⟨16, 3⟩,
        FrameOp.accumIDOp (0, 0),
        FrameOp.tileCompleteOp] : List FrameOp).foldl applyOp
          (beginFrame workerState))).tileAccumID 0
        = workerState.tileAccumID 0 + 1) :=
  ⟨by decide,
   endFrame_increments_accumID
     [FrameOp.startOp ErrVal.inf zeroInstances,
      FrameOp.incomingOp ⟨16, 3⟩,
      FrameOp.accumIDOp (0, 0),
      FrameOp.tileCompleteOp] workerState 0 (by decide)⟩

/-- C8: each of the three misuses raises its descriptive runtime failure —
`mapBuffer`/`unmap` without a master-side local framebuffer, `startNewFrame`
while the frame is already active, and a `MASTER_WRITE_TILE_I8` or
`MASTER_WRITE_TILE_F32` message entering the live message router. -/
theorem fatal_misuses (lfb : Option LocalFrameBuffer) (channel ptr : Nat)
    (s : DFBState) (θ : ErrVal) (inst : Nat → Int) (cmd : Nat)
    (hlfb : lfb = none) (hact : s.frameIsActive = true)
    (hcmd : cmd &&& MASTER_WRITE_TILE_I8 ≠ 0 ∨
            cmd &&& MASTER_WRITE_TILE_F32 ≠ 0) :
    mapBuffer lfb channel = Except.error DFBError.mapWithoutLocalFB ∧
    unmap lfb ptr = Except.error DFBError.unmapWithoutLocalFB ∧
    startNewFrame s θ inst = Except.error DFBError.startOnActiveFrame ∧
    routeCommand cmd = Except.error DFBError.masterMsgScheduled := by
  subst hlfb
  refine ⟨rfl, rfl, ?_, ?_⟩
  · unfold startNewFrame
    rw [if_pos hact]
  · unfold routeCommand
    rcases hcmd with h | h
    · rw [if_pos h]
    · by_cases h1 : cmd &&& MASTER_WRITE_TILE_I8 ≠ 0
      · rw [if_pos h1]
      · rw [if_neg h1, if_pos h]

/-- C8 witness: the three misuses at concrete inputs — no local
framebuffer, an active worker frame, and command bit
`MASTER_WRITE_TILE_I8`. -/
theorem fatal_misuses_witness :
    activeWorkerState.frameIsActive = true ∧
    MASTER_WRITE_TILE_I8 &&& MASTER_WRITE_TILE_I8 ≠ 0 ∧
    (mapBuffer none 0 = Except.error DFBError.mapWithoutLocalFB ∧
     unmap none 0 = Except.error DFBError.unmapWithoutLocalFB ∧
     startNewFrame activeWorkerState ErrVal.inf zeroInstances
        = Except.error DFBError.startOnActiveFrame ∧
     routeCommand MASTER_WRITE_TILE_I8
        = Except.error DFBError.masterMsgScheduled) :=
  ⟨rfl, by decide,
   fatal_misuses none 0 0 activeWorkerState ErrVal.inf zeroInstances
     MASTER_WRITE_TILE_I8 rfl rfl (Or.inl (by decide))⟩

/-- C9: on a framebuffer with an accumulation buffer, `accumID(tile)` is
not a pure read — it increments the per-tile usage counter
`tileInstances[tileNr]` as a side effect while returning
`tileAccumID[tileNr]`; without an accumulation buffer it returns 0 and
changes nothing. -/
theorem accumID_query_effect (s : DFBState) (tile : Nat × Nat) :
    (s.hasAccumBuffer = true →
        accumID s tile
          = (s.tileAccumID (tile.2 * s.numTilesX + tile.1),
             {s with tileInstances := (Function.update s.tileInstances
                (tile.2 * s.numTilesX + tile.1)
                (s.tileInstances (tile.2 * s.numTilesX + tile.1) + 1))})) ∧
    (s.hasAccumBuffer = false → accumID s tile = (0, s)) := by
  constructor
  · intro hacc
    have hfun : (fun n => if n = tile.2 * s.numTilesX + tile.1
            then s.tileInstances n + 1 else s.tileInstances n)
        = Function.update s.tileInstances (tile.2 * s.numTilesX + tile.1)
            (s.tileInstances (tile.2 * s.numTilesX + tile.1) + 1) := by
      funext n
      by_cases h : n = tile.2 * s.numTilesX + tile.1
      · subst h
        simp [Function.update]
      · simp [Function.update, h]
    unfold accumID
    rw [if_pos hacc, hfun]
  · intro hacc
    simp [accumID, hacc]

/-- C9 witness: querying `accumID` for tile (1, 1) on worker rank 1 bumps
`tileInstances[4]` and returns `tileAccumID[4]`. -/
theorem accumID_query_effect_witness :
    workerState.hasAccumBuffer = true ∧
    accumID workerState (1, 1)
      = (workerState.tileAccumID (1 * workerState.numTilesX + 1),
         {workerState with tileInstances :=
            (Function.update workerState.tileInstances
              (1 * workerState.numTilesX + 1)
              (workerState.tileInstances (1 * workerState.numTilesX + 1)
                + 1))}) :=
  ⟨rfl, (accumID_query_effect workerState (1, 1)).1 rfl⟩

/-- C10: calling `setTile` for a tile owned by this rank while the frame is
not active throws the "cannot setTile if frame is inactive" failure without
mutating any state (the throw precedes every mutation); pre-activation
buffering happens only in `incoming`, which appends to `delayedMessage` —
`setTile` never touches that queue. -/
theorem setTile_inactive_throws (s : DFBState) (coords : Nat × Nat)
    (payload : Nat)
    (hmine : mineTile s (getTileIDof s coords) = true)
    (hact : s.frameIsActive = false) :
    setTile s coords payload = Except.error DFBError.setTileInactive ∧
    incoming s ⟨WORKER_WRITE_TILE, payload⟩
      = {s with delayedMessage :=
          s.delayedMessage ++ [⟨WORKER_WRITE_TILE, payload⟩]} := by
  constructor
  · unfold setTile
    rw [if_neg (by rw [hmine]; simp), if_pos hact]
  · unfold incoming
    rw [if_neg (by rw [hact]; simp)]

/-- C10 witness: tile (0, 0) is owned by worker rank 1, whose frame is not
active. -/
theorem setTile_inactive_throws_witness :
    mineTile workerState (getTileIDof workerState (0, 0)) = true ∧
    workerState.frameIsActive = false ∧
    (setTile workerState (0, 0) 5 = Except.error DFBError.setTileInactive ∧
     incoming workerState ⟨WORKER_WRITE_TILE, 5⟩
       = {workerState with delayedMessage :=
           workerState.delayedMessage ++ [⟨WORKER_WRITE_TILE, 5⟩]}) :=
  ⟨rfl, rfl, setTile_inactive_throws workerState (0, 0) 5 rfl rfl⟩

end DFB
